import Mathlib

/-!
Verification development for the llamafu mobile binding layer
(`src/android/src/main/cpp/llamafu.cpp`, `src/ios/Classes/llamafu.cpp`).

The C entry points are shallowly embedded as Lean functions.  Opaque
external capabilities (the llama.cpp decode engine, tokenizer, sampler
backends, the filesystem) are modelled as oracle records (`CompleteEnv`,
`GenEnv`, ...) whose fields stand for the outcomes of those external
calls; the embedded functions reproduce the control flow, guard order and
state updates of the C source.  Machine floats are modelled as rationals:
NaN/Inf are not representable in this model, so `validate_float_param`'s
`isnan`/`isinf` rejections are vacuously absorbed.  Side effects on
external resources are made visible as explicit event lists.
-/

/-! ## Definitions -/

/-- Error codes from `llamafu.h` (`LlamafuError`).  `aborted` is
`LLAMAFU_ERROR_ABORTED = -36`, declared in the iOS header. -/
inductive LlamafuError where
  | success
  | unknown
  | invalidParam
  | modelLoadFailed
  | outOfMemory
  | multimodalNotSupported
  | loraLoadFailed
  | loraNotFound
  | grammarInitFailed
  | decodeFailed
  | aborted
deriving DecidableEq

/-- `validate_string_param` (android llamafu.cpp lines 59-67): non-null,
non-empty, at most 8192 bytes.  String length abstracts `strlen`. -/
def validate_string_param (s : Option String) : Bool :=
  match s with
  | none => false
  | some s => decide (s.length ≠ 0) && decide (s.length ≤ 8192)

/-- `validate_numeric_param` (android llamafu.cpp lines 69-71). -/
def validate_numeric_param (v vmin vmax : Int) : Bool :=
  decide (vmin ≤ v) && decide (v ≤ vmax)

/-- `validate_float_param` (android llamafu.cpp lines 73-75).  The C code
additionally rejects NaN and Inf, which have no rational counterpart. -/
def validate_float_param (v vmin vmax : ℚ) : Bool :=
  decide (vmin ≤ v) && decide (v ≤ vmax)

/-- `LlamafuInferParams` (iOS-style llamafu.h lines 111-143), the struct the
android translation unit compiles against.  Defaults mirror C zero
initialisation (`LlamafuInferParams params = {};`). -/
structure InferParams where
  prompt : Option String := none
  max_tokens : Int := 0
  temperature : ℚ := 0
  top_k : Int := 0
  top_p : ℚ := 0
  min_p : ℚ := 0
  typical_p : ℚ := 0
  repeat_penalty : ℚ := 0
  repeat_last_n : Int := 0
  frequency_penalty : ℚ := 0
  presence_penalty : ℚ := 0
  penalize_nl : Bool := false
  ignore_eos : Bool := false
  mirostat : Int := 0
  mirostat_tau : ℚ := 0
  mirostat_eta : ℚ := 0
  seed : Int := 0
  grammar_str : Option String := none
  grammar_root : Option String := none

/-- The numeric-bounds check performed by the android `llamafu_complete`
(lines 163-169): max_tokens∈[1,32768], temperature∈[0,2], top_p∈[0,1],
top_k∈[1,200], repeat_penalty∈[0.1,2.0]. -/
def complete_params_valid (p : InferParams) : Bool :=
  validate_numeric_param p.max_tokens 1 32768 &&
  validate_float_param p.temperature 0 2 &&
  validate_float_param p.top_p 0 1 &&
  validate_numeric_param p.top_k 1 200 &&
  validate_float_param p.repeat_penalty (1/10) 2

/-- The numeric-bounds check performed by the android
`llamafu_generate_text` (lines 1658-1663); unlike `llamafu_complete` it
does not validate `repeat_penalty`. -/
def generate_params_valid (p : InferParams) : Bool :=
  validate_numeric_param p.max_tokens 1 32768 &&
  validate_float_param p.temperature 0 2 &&
  validate_float_param p.top_p 0 1 &&
  validate_numeric_param p.top_k 1 200

/-- Android `Llamafu_s` handle state relevant to the abort feature: the
callback slot written by `llamafu_set_abort_callback` (fields
`abort_callback`, `abort_callback_data` at lines 47-48).  The callback is
modelled as a predicate on the generation iteration index. -/
structure AndroidHandle where
  abortCallback : Option (Nat → Bool) := none

/-- Oracles for the external calls made by the android `llamafu_complete`:
`llama_tokenize` on the prompt (token count, negative = failure),
`llama_decode` on the prompt batch, and `malloc` for the result buffer. -/
structure CompleteEnv where
  tokenizeCount : String → Int
  decodeOk : Bool
  mallocOk : Bool

/-- The fixed text prepended by the android `llamafu_complete`
(line 200). -/
def placeholderText : String :=
  "Hello from Llamafu! This is a placeholder response for: "

/-- Android `llamafu_complete` (llamafu.cpp lines 154-215): validates the
handle, prompt and numeric parameters, tokenizes the prompt, clears the
KV cache, decodes the prompt batch, and then writes a fixed placeholder
string followed by the prompt — no token is ever generated. -/
def llamafu_complete (llamafu : Option AndroidHandle) (params : Option InferParams)
    (outValid : Bool) (env : CompleteEnv) : LlamafuError × Option String :=
  match llamafu, params with
  | some _, some p =>
    if ¬ outValid then (.invalidParam, none)
    else if ¬ validate_string_param p.prompt then (.invalidParam, none)
    else if ¬ complete_params_valid p then (.invalidParam, none)
    else
      let prompt := p.prompt.getD ""
      let n := env.tokenizeCount prompt
      if n < 0 then (.invalidParam, none)
      else if n = 0 then (.invalidParam, none)
      else if ¬ env.decodeOk then (.unknown, none)
      else if ¬ env.mallocOk then (.outOfMemory, none)
      else (.success, some (placeholderText ++ prompt))
  | _, _ => (.invalidParam, none)

/-- Android `llamafu_set_abort_callback` (llamafu.cpp lines 2035-2047):
stores the callback and its user data in the handle; nothing in the
android translation unit ever reads the stored slot back. -/
def llamafu_set_abort_callback (llamafu : Option AndroidHandle)
    (cb : Option (Nat → Bool)) : LlamafuError × Option AndroidHandle :=
  match llamafu with
  | none => (.invalidParam, none)
  | some _ => (.success, some { abortCallback := cb })

/-- Oracles for the external calls made by the iOS `llamafu_complete`:
tokenization of the prompt, the prompt-batch decode, the per-iteration
sampling pipeline (`llama_sampler_sample` after temperature and
distribution stages), the `llama_vocab_is_eog` classification,
`llama_token_to_piece` rendering and the per-token decode. -/
structure IosEnv where
  tokenizeCount : String → Int
  promptDecodeOk : Bool
  sample : Nat → Int
  isEog : Int → Bool
  pieceOk : Nat → Bool
  piece : Nat → String
  stepDecodeOk : Nat → Bool
  allocOk : Bool

/-- The `LlamafuInferParams` fields relevant to the iOS
`llamafu_complete`: it reads only the prompt (dereferenced without a null
check, hence a plain string here), `max_tokens` and `temperature`.  The
`ignore_eos` flag is carried in the C struct but never read by any iOS
function. -/
structure IosInferParams where
  prompt : String
  max_tokens : Int := 0
  temperature : ℚ := 0
  ignore_eos : Bool := false

/-- The iOS generation loop (ios llamafu.cpp lines 135-188): sample, stop
on an end-of-generation token (before appending its piece), render the
piece, append it to the running result, decode the new token.  Piece or
decode failure returns `LLAMAFU_ERROR_UNKNOWN`. -/
def iosGenLoop (env : IosEnv) : Nat → Nat → String → LlamafuError × String
  | 0, _, res => (.success, res)
  | fuel + 1, i, res =>
    let t := env.sample i
    if env.isEog t then (.success, res)
    else if ¬ env.pieceOk i then (.unknown, res)
    else
      let res := res ++ env.piece i
      if ¬ env.stepDecodeOk i then (.unknown, res)
      else iosGenLoop env fuel (i + 1) res

/-- The iOS `llamafu_complete` (ios llamafu.cpp lines 107-199).  Unlike the
android variant it performs no parameter validation at all: it tokenizes
the prompt, decodes it, then runs the sampling loop `max_tokens` times,
returning the prompt plus the generated pieces. -/
def ios_llamafu_complete (p : IosInferParams) (env : IosEnv) :
    LlamafuError × Option String :=
  let n := env.tokenizeCount p.prompt
  if n < 0 then (.invalidParam, none)
  else if ¬ env.promptDecodeOk then (.unknown, none)
  else
    match iosGenLoop env p.max_tokens.toNat 0 p.prompt with
    | (.success, res) => if env.allocOk then (.success, some res) else (.unknown, none)
    | (e, _) => (e, none)

/-- `LlamafuModelParams` (llamafu.h). -/
structure ModelParams where
  model_path : Option String := none
  mmproj_path : Option String := none
  n_threads : Int := 0
  n_ctx : Int := 0
  use_gpu : Bool := false

/-- External resources touched by the init paths, in call order. -/
inductive InitEvent where
  | backendInit
  | modelLoadAttempt
  | ctxInit
  | clipInit
  | backendFree
deriving DecidableEq

/-- Oracles for the init paths: whether `llama_model_load_from_file`,
`llama_init_from_model` and `initialize_clip_context` succeed. -/
structure InitEnv where
  modelLoadOk : Bool
  ctxInitOk : Bool
  clipResult : LlamafuError

/-- Android `llamafu_init` (llamafu.cpp lines 82-152): validates `params`,
`out_llamafu` and `model_path` before any backend call, then initialises
the backend, loads the model, creates the context and optionally the CLIP
context, rolling everything back on failure.  The returned triple is
(error, value of the caller's `out_llamafu` slot, events). -/
def llamafu_init (params : Option ModelParams) (outValid : Bool)
    (prevOut : Option AndroidHandle) (env : InitEnv) :
    LlamafuError × Option AndroidHandle × List InitEvent :=
  match params with
  | none => (.invalidParam, prevOut, [])
  | some ps =>
    if ¬ outValid then (.invalidParam, prevOut, [])
    else if ¬ validate_string_param ps.model_path then (.invalidParam, prevOut, [])
    else if ¬ env.modelLoadOk then
      (.modelLoadFailed, prevOut, [.backendInit, .modelLoadAttempt, .backendFree])
    else if ¬ env.ctxInitOk then
      (.outOfMemory, prevOut, [.backendInit, .modelLoadAttempt, .ctxInit, .backendFree])
    else if validate_string_param ps.mmproj_path ∧ env.clipResult ≠ .success then
      (env.clipResult, prevOut,
        [.backendInit, .modelLoadAttempt, .ctxInit, .clipInit, .backendFree])
    else
      (.success, some {}, [.backendInit, .modelLoadAttempt, .ctxInit])

/-- iOS `llamafu_init` (ios llamafu.cpp lines 31-87): performs no
parameter validation; it initialises the backend and attempts the model
load unconditionally. -/
def ios_llamafu_init (ps : ModelParams) (env : InitEnv) :
    LlamafuError × List InitEvent :=
  if ¬ env.modelLoadOk then (.modelLoadFailed, [.backendInit, .modelLoadAttempt])
  else if ¬ env.ctxInitOk then (.outOfMemory, [.backendInit, .modelLoadAttempt, .ctxInit])
  else if validate_string_param ps.mmproj_path ∧ env.clipResult ≠ .success then
    (.modelLoadFailed, [.backendInit, .modelLoadAttempt, .ctxInit, .clipInit])
  else (.success, [.backendInit, .modelLoadAttempt, .ctxInit])

/-- Observable effects of the LoRA operations: detaching an adapter from
the live context (`llama_rm_adapter_lora`), freeing its delta weights
(`llama_adapter_lora_free`), and opening the adapter file. -/
inductive LoraEvent where
  | detach (h : Nat)
  | freeWeights (h : Nat)
  | fsOpen
deriving DecidableEq

/-- Oracles for `llamafu_load_lora_adapter_from_file`: whether
`llama_adapter_lora_init` succeeds and the fresh opaque handle value. -/
structure LoraLoadEnv where
  adapterLoadOk : Bool
  newHandle : Nat

/-- Android `llamafu_load_lora_adapter_from_file` (llamafu.cpp lines
249-273): validates handle, path, out pointer, then the scale against
[0,2], before ever calling `llama_adapter_lora_init`; on success the new
handle is registered in the handle's adapter map. -/
def llamafu_load_lora_adapter_from_file (llamafuPresent : Bool) (reg : Finset ℕ)
    (lora_path : Option String) (scale : ℚ) (outValid : Bool) (env : LoraLoadEnv) :
    LlamafuError × Finset ℕ × List LoraEvent :=
  if ¬ llamafuPresent ∨ ¬ validate_string_param lora_path ∨ ¬ outValid then
    (.invalidParam, reg, [])
  else if ¬ validate_float_param scale 0 2 then (.invalidParam, reg, [])
  else if ¬ env.adapterLoadOk then (.loraLoadFailed, reg, [.fsOpen])
  else (.success, insert env.newHandle reg, [.fsOpen])

/-- Android `llamafu_unload_lora_adapter` (llamafu.cpp lines 299-316):
null checks, lookup in the adapter map (`LLAMAFU_ERROR_LORA_NOT_FOUND`
when absent), then `llama_adapter_lora_free` followed by erasure from the
map.  Note the code performs no `llama_rm_adapter_lora` detach. -/
def llamafu_unload_lora_adapter (llamafu : Option (Finset ℕ)) (adapter : Option ℕ) :
    LlamafuError × Option (Finset ℕ) × List LoraEvent :=
  match llamafu, adapter with
  | some reg, some a =>
    if a ∈ reg then (.success, some (reg.erase a), [.freeWeights a])
    else (.loraNotFound, some reg, [])
  | l, _ => (.invalidParam, l, [])

/-- `LlamafuSamplerType` (llamafu.h). -/
inductive SamplerType where
  | greedy
  | dist
  | topK
  | topP
  | minP
  | typical
  | temp
  | mirostat
  | mirostatV2
  | penalties
  | grammar
  | chain
deriving DecidableEq

/-- `LlamafuSampler_s`: a tagged wrapper around a llama sampler.  For a
chain sampler, the children are the samplers held by the underlying
`llama_sampler_chain`. -/
inductive LSampler where
  | mk (stype : SamplerType) (children : List LSampler)

/-- The type tag of a wrapped sampler. -/
def LSampler.stype : LSampler → SamplerType
  | .mk t _ => t

/-- The children of a wrapped (chain) sampler. -/
def LSampler.children : LSampler → List LSampler
  | .mk _ cs => cs

/-- `llamafu_sampler_chain_init` (llamafu.cpp lines 479-491): creates an
empty chain-typed sampler; `ok` is whether the underlying
`llama_sampler_chain_init` returns non-null. -/
def llamafu_sampler_chain_init (ok : Bool) : Option LSampler :=
  if ok then some (.mk .chain []) else none

/-- `llamafu_sampler_init_top_k` (llamafu.cpp lines 493-509): `k <= 0` is
rejected before the underlying constructor runs. -/
def llamafu_sampler_init_top_k (k : Int) (underlyingOk : Bool) : Option LSampler :=
  if k ≤ 0 then none
  else if underlyingOk then some (.mk .topK []) else none

/-- `llamafu_sampler_init_top_p` (llamafu.cpp lines 511-527): `p` outside
[0,1] is rejected before the underlying constructor runs. -/
def llamafu_sampler_init_top_p (p : ℚ) (min_keep : Nat) (underlyingOk : Bool) :
    Option LSampler :=
  if p < 0 ∨ 1 < p then none
  else if underlyingOk then some (.mk .topP []) else none

/-- `llamafu_sampler_init_min_p` (llamafu.cpp lines 529-545). -/
def llamafu_sampler_init_min_p (p : ℚ) (min_keep : Nat) (underlyingOk : Bool) :
    Option LSampler :=
  if p < 0 ∨ 1 < p then none
  else if underlyingOk then some (.mk .minP []) else none

/-- `llamafu_sampler_init_typical` (llamafu.cpp lines 555-571). -/
def llamafu_sampler_init_typical (p : ℚ) (min_keep : Nat) (underlyingOk : Bool) :
    Option LSampler :=
  if p < 0 ∨ 1 < p then none
  else if underlyingOk then some (.mk .typical []) else none

/-- `llamafu_sampler_init_mirostat` (llamafu.cpp lines 609-625): rejects
`n_vocab <= 0 || tau <= 0 || eta <= 0 || m <= 0` at construction. -/
def llamafu_sampler_init_mirostat (n_vocab : Int) (seed : Nat) (tau eta : ℚ)
    (m : Int) (underlyingOk : Bool) : Option LSampler :=
  if n_vocab ≤ 0 ∨ tau ≤ 0 ∨ eta ≤ 0 ∨ m ≤ 0 then none
  else if underlyingOk then some (.mk .mirostat []) else none

/-- `llamafu_sampler_init_mirostat_v2` (llamafu.cpp lines 627-643):
rejects `tau <= 0 || eta <= 0` at construction. -/
def llamafu_sampler_init_mirostat_v2 (seed : Nat) (tau eta : ℚ)
    (underlyingOk : Bool) : Option LSampler :=
  if tau ≤ 0 ∨ eta ≤ 0 then none
  else if underlyingOk then some (.mk .mirostatV2 []) else none

/-- `llamafu_sampler_chain_add` (llamafu.cpp lines 680-691): a null chain,
null sampler or non-chain-typed first argument returns
`LLAMAFU_ERROR_INVALID_PARAM` without touching any chain; otherwise the
sampler is appended to the underlying chain. -/
def llamafu_sampler_chain_add : Option LSampler → Option LSampler →
    LlamafuError × Option LSampler
  | none, _ => (.invalidParam, none)
  | some c, none => (.invalidParam, some c)
  | some (.mk t cs), some s =>
    if t = SamplerType.chain then (.success, some (.mk t (cs ++ [s])))
    else (.invalidParam, some (.mk t cs))

/-- `llamafu_sampler_chain_remove` (llamafu.cpp lines 693-707): a null or
non-chain sampler or a negative index returns
`LLAMAFU_ERROR_INVALID_PARAM`; otherwise the underlying
`llama_sampler_chain_remove` erases the element at index `i` (for an
in-range index; out of range the underlying call returns null and the
wrapper still reports success with the chain unchanged, which
`List.eraseIdx`'s out-of-range no-op mirrors). -/
def llamafu_sampler_chain_remove : Option LSampler → Int →
    LlamafuError × Option LSampler
  | none, _ => (.invalidParam, none)
  | some (.mk t cs), i =>
    if t = SamplerType.chain ∧ 0 ≤ i then
      (.success, some (.mk t (cs.eraseIdx i.toNat)))
    else (.invalidParam, some (.mk t cs))

/-- `llamafu_sampler_chain_n` (llamafu.cpp lines 709-719): -1 for a null
or non-chain sampler, otherwise the number of children. -/
def llamafu_sampler_chain_n : Option LSampler → Int
  | some (.mk t cs) => if t = SamplerType.chain then (cs.length : Int) else -1
  | none => -1

/-- An interleaved sequence of chain operations, as in claim C7. -/
inductive ChainOp where
  | add (s : LSampler)
  | remove (i : Nat)

/-- Run a sequence of `chain_add` / `chain_remove` calls against a
sampler. -/
def runOps : Option LSampler → List ChainOp → Option LSampler
  | c, [] => c
  | c, ChainOp.add s :: ops => runOps (llamafu_sampler_chain_add c (some s)).2 ops
  | c, ChainOp.remove i :: ops =>
    runOps (llamafu_sampler_chain_remove c (Int.ofNat i)).2 ops

/-- Number of `chain_add` calls in a sequence. -/
def nAdds : List ChainOp → Nat
  | [] => 0
  | ChainOp.add _ :: ops => nAdds ops + 1
  | ChainOp.remove _ :: ops => nAdds ops

/-- Number of `chain_remove` calls in a sequence. -/
def nRemoves : List ChainOp → Nat
  | [] => 0
  | ChainOp.add _ :: ops => nRemoves ops
  | ChainOp.remove _ :: ops => nRemoves ops + 1

/-- Claim C7's side condition: every removed index is in range at the
moment of its removal, tracked through the evolving child count. -/
def opsValid : Nat → List ChainOp → Bool
  | _, [] => true
  | n, ChainOp.add _ :: ops => opsValid (n + 1) ops
  | n, ChainOp.remove i :: ops => decide (i < n) && opsValid (n - 1) ops

/-- Vocabulary oracles for the token query wrappers. -/
structure VocabEnv where
  bosTok : Int
  eosTok : Int
  nTokens : Int
  isEogTok : Int → Bool
  stateSize : Nat

/-- Memory (KV-cache) oracles for the `llamafu_memory_*` wrappers. -/
structure MemEnv where
  seqRmOk : Bool
  posMax : Int
  canShift : Bool

/-- `llamafu_token_bos` (llamafu.cpp lines 939-950): -1 for a null handle,
no backend call made. -/
def llamafu_token_bos (llamafu : Option AndroidHandle) (env : VocabEnv) :
    Int × List String :=
  match llamafu with
  | none => (-1, [])
  | some _ => (env.bosTok, ["llama_vocab_bos"])

/-- `llamafu_token_eos` (llamafu.cpp lines 952-963). -/
def llamafu_token_eos (llamafu : Option AndroidHandle) (env : VocabEnv) :
    Int × List String :=
  match llamafu with
  | none => (-1, [])
  | some _ => (env.eosTok, ["llama_vocab_eos"])

/-- `llamafu_token_is_eog` (llamafu.cpp lines 912-923): false for a null
handle. -/
def llamafu_token_is_eog (llamafu : Option AndroidHandle) (t : Int) (env : VocabEnv) :
    Bool × List String :=
  match llamafu with
  | none => (false, [])
  | some _ => (env.isEogTok t, ["llama_vocab_is_eog"])

/-- `llamafu_vocab_n_tokens` (llamafu.cpp lines 1537-1551): -1 for a null
handle. -/
def llamafu_vocab_n_tokens (llamafu : Option AndroidHandle) (env : VocabEnv) :
    Int × List String :=
  match llamafu with
  | none => (-1, [])
  | some _ => (env.nTokens, ["llama_vocab_n_tokens"])

/-- `llamafu_get_state_size` (llamafu.cpp lines 1205-1215): 0 for a null
handle. -/
def llamafu_get_state_size (llamafu : Option AndroidHandle) (env : VocabEnv) :
    Nat × List String :=
  match llamafu with
  | none => (0, [])
  | some _ => (env.stateSize, ["llama_state_get_size"])

/-- `llamafu_get_memory` (llamafu.cpp lines 1075-1085): null for a null
handle. -/
def llamafu_get_memory (llamafu : Option AndroidHandle) :
    Option Unit × List String :=
  match llamafu with
  | none => (none, [])
  | some _ => (some (), ["llama_get_memory"])

/-- `llamafu_memory_clear` (llamafu.cpp lines 1087-1095): a no-op for a
null memory handle. -/
def llamafu_memory_clear (memory : Option Unit) (clearData : Bool) : List String :=
  match memory with
  | none => []
  | some _ => ["llama_memory_clear"]

/-- `llamafu_memory_seq_rm` (llamafu.cpp lines 1097-1107): false for a
null memory handle. -/
def llamafu_memory_seq_rm (memory : Option Unit) (seqId p0 p1 : Int) (env : MemEnv) :
    Bool × List String :=
  match memory with
  | none => (false, [])
  | some _ => (env.seqRmOk, ["llama_memory_seq_rm"])

/-- `llamafu_memory_seq_pos_max` (llamafu.cpp lines 1169-1179): -1 for a
null memory handle. -/
def llamafu_memory_seq_pos_max (memory : Option Unit) (seqId : Int) (env : MemEnv) :
    Int × List String :=
  match memory with
  | none => (-1, [])
  | some _ => (env.posMax, ["llama_memory_seq_pos_max"])

/-- `llamafu_memory_can_shift` (llamafu.cpp lines 1181-1191): false for a
null memory handle. -/
def llamafu_memory_can_shift (memory : Option Unit) (env : MemEnv) :
    Bool × List String :=
  match memory with
  | none => (false, [])
  | some _ => (env.canShift, ["llama_memory_can_shift"])

/-- `llamafu_sampler_free` (llamafu.cpp lines 776-783): a no-op for a null
sampler. -/
def llamafu_sampler_free (s : Option LSampler) : List String :=
  match s with
  | none => []
  | some _ => ["llama_sampler_free"]

/-- `llamafu_sampler_accept` (llamafu.cpp lines 752-762): a no-op for a
null sampler. -/
def llamafu_sampler_accept (s : Option LSampler) (t : Int) : List String :=
  match s with
  | none => []
  | some _ => ["llama_sampler_accept"]

/-- `llamafu_sampler_sample` (llamafu.cpp lines 740-750): -1 for a null
sampler, a null handle or a negative index. -/
def llamafu_sampler_sample (s : Option LSampler) (llamafu : Option AndroidHandle)
    (idx : Int) (result : Int) : Int × List String :=
  match s, llamafu with
  | some _, some _ =>
    if idx < 0 then (-1, []) else (result, ["llama_sampler_sample"])
  | _, _ => (-1, [])

/-- `llamafu_free` (llamafu.cpp lines 1035-1070): a no-op for a null
handle. -/
def llamafu_free (llamafu : Option AndroidHandle) : List String :=
  match llamafu with
  | none => []
  | some _ => ["llama_free", "llama_model_free", "llama_backend_free"]

/-- Oracles for the external calls made by the android
`llamafu_generate_text`: prompt tokenization, sampler-chain creation,
prompt decode, the value the underlying `llama_sampler_sample` would
produce at iteration i (fed to the wrapper `llamafu_sampler_sample` as
its oracle argument), the per-token decode, the EOS token id,
detokenization and allocation. -/
structure GenEnv where
  tokenizeCount : String → Int
  chainInitOk : Bool
  promptDecodeOk : Bool
  sampleResult : Nat → Int
  stepDecodeOk : Nat → Bool
  eosTok : Int
  detokOk : Bool
  mallocOk : Bool

/-- The decode loop of the android `llamafu_generate_text` (llamafu.cpp
lines 1738-1759).  Each iteration draws via the wrapper call
`llamafu_sampler_sample(sampler_chain, llamafu, -1)` with the hard-coded
index -1 (line 1740); the wrapper's own `idx < 0` guard (line 741)
therefore yields -1 every time, and the `next_token < 0` break (lines
1741-1743) fires on the first iteration.  The EOS stop unless
`ignore_eos` (lines 1747-1750), the accept and the per-token decode are
embedded verbatim even though the sampler guard makes them unreachable.
The handle's abort-callback slot is never consulted anywhere in this
loop. -/
def genLoop (chain : Option LSampler) (llamafu : Option AndroidHandle)
    (env : GenEnv) (ignoreEos : Bool) : Nat → Nat → List Int → List Int
  | 0, _, acc => acc
  | fuel + 1, i, acc =>
    let t := (llamafu_sampler_sample chain llamafu (-1) (env.sampleResult i)).1
    if t < 0 then acc
    else
      let acc2 := acc ++ [t]
      if ignoreEos = false ∧ t = env.eosTok then acc2
      else if ¬ env.stepDecodeOk i then acc2
      else genLoop chain llamafu env ignoreEos fuel (i + 1) acc2

/-- Android `llamafu_generate_text` (llamafu.cpp lines 1653-1798): guard
checks, numeric validation (no `repeat_penalty` bound here), prompt
tokenization, sampler-chain construction (the conditional
top_k/top_p/temperature/penalties `chain_add` calls at lines 1685-1720
only populate the chain's children and are irrelevant to the wrapper
guard the loop trips on), KV-cache clear, prompt decode, then the decode
loop; an empty generation yields an empty result with success.  The
returned list is the generated token ids (the C code then detokenizes
them).  The handle — including its registered abort callback — is
matched but never read during generation. -/
def llamafu_generate_text (llamafu : Option AndroidHandle) (prompt : Option String)
    (params : Option InferParams) (outValid : Bool) (env : GenEnv) :
    LlamafuError × Option (List Int) :=
  match llamafu, params with
  | some h, some p =>
    if ¬ validate_string_param prompt ∨ ¬ outValid then (.invalidParam, none)
    else if ¬ generate_params_valid p then (.invalidParam, none)
    else if env.tokenizeCount (prompt.getD "") < 0 then (.invalidParam, none)
    else
      match llamafu_sampler_chain_init env.chainInitOk with
      | none => (.outOfMemory, none)
      | some chain =>
        if ¬ env.promptDecodeOk then (.decodeFailed, none)
        else
          let tokens := genLoop (some chain) (some h) env p.ignore_eos
            p.max_tokens.toNat 0 []
          if tokens = [] then (.success, some [])
          else if ¬ env.detokOk then (.unknown, none)
          else if ¬ env.mallocOk then (.outOfMemory, none)
          else (.success, some tokens)
  | _, _ => (.invalidParam, none)

/-! ### Concrete inputs used by witnesses and counterexamples -/

def demoParams : InferParams :=
  { prompt := some "hi", max_tokens := 100, temperature := 1, top_k := 40,
    top_p := 1, repeat_penalty := 1 }

def demoCompleteEnv : CompleteEnv :=
  { tokenizeCount := fun _ => 1, decodeOk := true, mallocOk := true }

def boundaryParams : InferParams :=
  { prompt := some "hi", max_tokens := 1, temperature := 2, top_k := 200,
    top_p := 0, repeat_penalty := 1/10 }

def iosZeroTokParams : IosInferParams := { prompt := "hi", max_tokens := 0 }

def iosDemoEnv : IosEnv :=
  { tokenizeCount := fun _ => 1, promptDecodeOk := true, sample := fun _ => 0,
    isEog := fun _ => false, pieceOk := fun _ => true, piece := fun _ => "",
    stepDecodeOk := fun _ => true, allocOk := true }

/-- A handle whose registered abort callback requests cancellation from
the very first poll. -/
def abortAlwaysHandle : AndroidHandle := { abortCallback := some fun _ => true }

def abortParams : InferParams :=
  { prompt := some "hi", max_tokens := 3, temperature := 0, top_k := 40, top_p := 1 }

/-- A fully cooperative external world: tokenize, chain init, decodes,
detokenize and allocation all succeed, and the underlying sampler would
produce token 7 (never the EOS token 2) if it were ever reached. -/
def abortGenEnv : GenEnv :=
  { tokenizeCount := fun _ => 1, chainInitOk := true, promptDecodeOk := true,
    sampleResult := fun _ => 7, stepDecodeOk := fun _ => true, eosTok := 2,
    detokOk := true, mallocOk := true }

/-- Generation parameters asking for EOS to be ignored over 3 tokens. -/
def ignoreEosParams : InferParams :=
  { prompt := some "hi", max_tokens := 3, temperature := 0, top_k := 40,
    top_p := 1, ignore_eos := true }

/-- iOS parameters with `ignore_eos` set (a field the iOS code never
reads) and a 3-token budget. -/
def iosIgnoreEosParams : IosInferParams :=
  { prompt := "hi", max_tokens := 3, ignore_eos := true }

/-- An iOS environment whose very first sampled token is classified as
end-of-generation. -/
def iosEogEnv : IosEnv :=
  { tokenizeCount := fun _ => 1, promptDecodeOk := true, sample := fun _ => 0,
    isEog := fun _ => true, pieceOk := fun _ => true, piece := fun _ => "",
    stepDecodeOk := fun _ => true, allocOk := true }

def demoOps : List ChainOp :=
  [.add (.mk .topK []), .add (.mk .temp []), .remove 0]

/-! ## Theorems -/

/-- Claim C2: whenever the android `llamafu_complete` returns
`LLAMAFU_SUCCESS`, the string written to `out_result` is exactly the fixed
placeholder text concatenated with the caller's prompt; it depends on the
prompt alone — the model's logits never enter the computation and the
sampling parameters (temperature, top_k, top_p) only influence whether
validation passes, never the produced text. -/
theorem llamafu_complete_placeholder (h : Option AndroidHandle) (p : InferParams)
    (outValid : Bool) (env : CompleteEnv) (s : String)
    (hs : llamafu_complete h (some p) outValid env = (.success, some s)) :
    s = placeholderText ++ p.prompt.getD "" := by
  cases h with
  | none => simp [llamafu_complete] at hs
  | some hdl =>
    simp only [llamafu_complete] at hs
    split_ifs at hs <;> simp_all

/-- Witness for C2: at a concrete prompt the success path is taken and the
returned string is the placeholder plus the prompt. -/
theorem llamafu_complete_placeholder_witness :
    placeholderText ++ "hi" = placeholderText ++ demoParams.prompt.getD "" :=
  llamafu_complete_placeholder (some {}) demoParams true demoCompleteEnv
    (placeholderText ++ "hi")
    (by norm_num [llamafu_complete, demoParams, demoCompleteEnv, complete_params_valid,
        validate_string_param, validate_numeric_param, validate_float_param]
        decide)

/-- Claim C4, amended part: in the android binding, any of the documented
numeric parameters strictly below its minimum or strictly above its
maximum makes `llamafu_complete` return `LLAMAFU_ERROR_INVALID_PARAM`
(whatever the other arguments and the external world do), and every
parameter vector lying within the documented closed intervals — in
particular one sitting exactly at the minima or maxima — passes the
numeric validation. -/
theorem llamafu_complete_numeric_bounds :
    (∀ (h : Option AndroidHandle) (p : InferParams) (outValid : Bool) (env : CompleteEnv),
      (p.max_tokens < 1 ∨ 32768 < p.max_tokens ∨
       p.temperature < 0 ∨ 2 < p.temperature ∨
       p.top_p < 0 ∨ 1 < p.top_p ∨
       p.top_k < 1 ∨ 200 < p.top_k ∨
       p.repeat_penalty < 1/10 ∨ 2 < p.repeat_penalty) →
      llamafu_complete h (some p) outValid env = (.invalidParam, none))
    ∧ (∀ p : InferParams,
      1 ≤ p.max_tokens → p.max_tokens ≤ 32768 →
      0 ≤ p.temperature → p.temperature ≤ 2 →
      0 ≤ p.top_p → p.top_p ≤ 1 →
      1 ≤ p.top_k → p.top_k ≤ 200 →
      1/10 ≤ p.repeat_penalty → p.repeat_penalty ≤ 2 →
      complete_params_valid p = true) := by
  constructor
  · intro h p outValid env hbad
    have hval : complete_params_valid p = false := by
      simp only [complete_params_valid, validate_numeric_param, validate_float_param,
        Bool.and_eq_false_iff, decide_eq_false_iff_not, not_le]
      rcases hbad with hb | hb | hb | hb | hb | hb | hb | hb | hb | hb <;> tauto
    cases h with
    | none => simp [llamafu_complete]
    | some hdl =>
      simp only [llamafu_complete]
      split_ifs <;> simp_all
  · intro p h1 h2 h3 h4 h5 h6 h7 h8 h9 h10
    rw [one_div] at h9
    simp [complete_params_valid, validate_numeric_param, validate_float_param,
      h1, h2, h3, h4, h5, h6, h7, h8, h9, h10]

/-- Witness for C4: `max_tokens = 0` (one below the minimum) is rejected
with InvalidParam, and a vector sitting exactly on the bounds passes
validation. -/
theorem llamafu_complete_numeric_bounds_witness :
    llamafu_complete (some {}) (some { demoParams with max_tokens := 0 }) true
      demoCompleteEnv = (.invalidParam, none)
    ∧ complete_params_valid boundaryParams = true :=
  ⟨llamafu_complete_numeric_bounds.1 (some {}) _ true demoCompleteEnv
    (Or.inl (by norm_num [demoParams])),
   llamafu_complete_numeric_bounds.2 boundaryParams (by norm_num [boundaryParams])
    (by norm_num [boundaryParams]) (by norm_num [boundaryParams])
    (by norm_num [boundaryParams]) (by norm_num [boundaryParams])
    (by norm_num [boundaryParams]) (by norm_num [boundaryParams])
    (by norm_num [boundaryParams]) (by norm_num [boundaryParams])
    (by norm_num [boundaryParams])⟩

/-- Counterexample for C4 as stated: the iOS `llamafu_complete` — one of
the `llamafu_complete` variants the claim quantifies over — accepts
`max_tokens = 0` (one below the documented minimum of 1) and returns
`LLAMAFU_SUCCESS` with the bare prompt, not
`LLAMAFU_ERROR_INVALID_PARAM`. -/
theorem ios_llamafu_complete_no_validation :
    iosZeroTokParams.max_tokens = 0
    ∧ ios_llamafu_complete iosZeroTokParams iosDemoEnv = (.success, some "hi")
    ∧ (ios_llamafu_complete iosZeroTokParams iosDemoEnv).1 ≠ .invalidParam := by
  refine ⟨rfl, ?_, ?_⟩ <;> simp [ios_llamafu_complete, iosZeroTokParams, iosDemoEnv,
    iosGenLoop]

/-- Claim C5, amended: in the android binding, `llamafu_init` with a null
or empty `model_path` returns `LLAMAFU_ERROR_INVALID_PARAM` before
touching any external resource (empty event trace) and leaves the
caller's `out_llamafu` slot exactly as it was. -/
theorem llamafu_init_rejects_empty_path (ps : ModelParams) (outValid : Bool)
    (prevOut : Option AndroidHandle) (env : InitEnv)
    (hpath : ps.model_path = none ∨ ps.model_path = some "") :
    llamafu_init (some ps) outValid prevOut env = (.invalidParam, prevOut, []) := by
  have hval : validate_string_param ps.model_path = false := by
    rcases hpath with h | h <;> simp [h, validate_string_param]
  simp only [llamafu_init]
  split_ifs <;> simp_all

/-- Witness for C5: concrete empty-path call. -/
theorem llamafu_init_rejects_empty_path_witness :
    llamafu_init (some { model_path := some "" }) true none
      { modelLoadOk := true, ctxInitOk := true, clipResult := .success }
      = (.invalidParam, none, []) :=
  llamafu_init_rejects_empty_path _ true none _ (Or.inr rfl)

/-- Counterexample for C5 as stated: the iOS `llamafu_init` with
`model_path = ""` does not return InvalidParam — it initialises the
backend and attempts the model load (external resources touched), then
reports `LLAMAFU_ERROR_MODEL_LOAD_FAILED`. -/
theorem ios_llamafu_init_touches_backend :
    ios_llamafu_init { model_path := some "" }
        { modelLoadOk := false, ctxInitOk := true, clipResult := .success }
      = (.modelLoadFailed, [.backendInit, .modelLoadAttempt])
    ∧ (ios_llamafu_init { model_path := some "" }
        { modelLoadOk := false, ctxInitOk := true, clipResult := .success }).1
        ≠ .invalidParam
    ∧ (ios_llamafu_init { model_path := some "" }
        { modelLoadOk := false, ctxInitOk := true, clipResult := .success }).2 ≠ [] := by
  refine ⟨?_, ?_, ?_⟩ <;> simp [ios_llamafu_init]

/-- Claim C8, amended: a first unload of a registered handle succeeds and
erases the handle from the owning map — freeing the delta weights
directly, without a prior detach from the live context — and a second
unload of the same handle therefore returns
`LLAMAFU_ERROR_LORA_NOT_FOUND` rather than double-freeing. -/
theorem llamafu_unload_lora_twice (reg : Finset ℕ) (a : ℕ) (ha : a ∈ reg) :
    llamafu_unload_lora_adapter (some reg) (some a)
      = (.success, some (reg.erase a), [.freeWeights a])
    ∧ (llamafu_unload_lora_adapter (some (reg.erase a)) (some a)).1 = .loraNotFound := by
  constructor
  · simp [llamafu_unload_lora_adapter, ha]
  · simp [llamafu_unload_lora_adapter, Finset.not_mem_erase]

/-- Witness for C8: handle 5 registered alone; unload once, then again. -/
theorem llamafu_unload_lora_twice_witness :
    llamafu_unload_lora_adapter (some {5}) (some 5)
      = (.success, some (Finset.erase {5} 5), [.freeWeights 5])
    ∧ (llamafu_unload_lora_adapter (some (Finset.erase {5} 5)) (some 5)).1
      = .loraNotFound :=
  llamafu_unload_lora_twice {5} 5 (by decide)

/-- Counterexample for C8 as stated: a successful first unload emits no
detach event at all — the delta weights are freed without the adapter
ever being detached from the live context, contradicting the claimed
detach-before-free ordering. -/
theorem llamafu_unload_lora_no_detach :
    (llamafu_unload_lora_adapter (some {5}) (some 5)).1 = .success
    ∧ LoraEvent.freeWeights 5 ∈ (llamafu_unload_lora_adapter (some {5}) (some 5)).2.2
    ∧ LoraEvent.detach 5 ∉ (llamafu_unload_lora_adapter (some {5}) (some 5)).2.2 := by
  refine ⟨?_, ?_, ?_⟩ <;> simp [llamafu_unload_lora_adapter]

/-- Claim C9: a LoRA load with scale outside [0,2] returns
`LLAMAFU_ERROR_INVALID_PARAM` with an empty event trace (no filesystem
access, no adapter allocation) and the adapter registry unchanged. -/
theorem llamafu_load_lora_scale_guard (llamafuPresent : Bool) (reg : Finset ℕ)
    (lora_path : Option String) (scale : ℚ) (outValid : Bool) (env : LoraLoadEnv)
    (hscale : scale < 0 ∨ 2 < scale) :
    llamafu_load_lora_adapter_from_file llamafuPresent reg lora_path scale outValid env
      = (.invalidParam, reg, []) := by
  have hval : validate_float_param scale 0 2 = false := by
    rcases hscale with h | h <;> simp [validate_float_param] <;> intro h2 <;> linarith
  simp only [llamafu_load_lora_adapter_from_file]
  split_ifs <;> simp_all

/-- Witness for C9: scale 3.0 on a populated registry. -/
theorem llamafu_load_lora_scale_guard_witness :
    llamafu_load_lora_adapter_from_file true {7} (some "adapter.gguf") 3 true
      { adapterLoadOk := true, newHandle := 9 } = (.invalidParam, {7}, []) :=
  llamafu_load_lora_scale_guard true {7} (some "adapter.gguf") 3 true _
    (Or.inr (by norm_num))

/-- Helper: the sampler wrapper called with the loop's hard-coded index
-1 trips its own `idx < 0` guard (llamafu.cpp line 741) and returns -1,
whatever the chain, the handle and the underlying sampler would do. -/
theorem llamafu_sampler_sample_neg_idx (s : Option LSampler)
    (llamafu : Option AndroidHandle) (r : Int) :
    (llamafu_sampler_sample s llamafu (-1) r).1 = -1 := by
  cases s <;> cases llamafu <;> simp [llamafu_sampler_sample]

/-- Helper: because every draw returns -1, the decode loop breaks on its
first iteration and never appends a token. -/
theorem genLoop_always_empty (chain : Option LSampler)
    (llamafu : Option AndroidHandle) (env : GenEnv) (ig : Bool) :
    ∀ (fuel i : Nat) (acc : List Int),
      genLoop chain llamafu env ig fuel i acc = acc := by
  intro fuel i acc
  cases fuel with
  | zero => rfl
  | succ n =>
    have hneg := llamafu_sampler_sample_neg_idx chain llamafu (env.sampleResult i)
    simp [genLoop, hneg]

/-- Claim C3 (code bug evidence): the decode loop's stop-condition logic
(EOS ends generation unless `ignore_eos`; `ignore_eos = true` runs to
`max_tokens`) is dead code.  With `ignore_eos = true`, `max_tokens = 3`
and every external call succeeding, the android `llamafu_generate_text`
returns `LLAMAFU_SUCCESS` with zero generated tokens: the loop's draw
`llamafu_sampler_sample(chain, llamafu, -1)` (line 1740) trips the
wrapper's `idx < 0` guard (line 741), so the `next_token < 0` break fires
on the first iteration and the EOS check is never reached.  The iOS
`llamafu_complete` never reads `ignore_eos` either: with it set and a
3-token budget it still stops at the first end-of-generation token,
returning only the prompt. -/
theorem llamafu_generate_eos_logic_dead :
    ignoreEosParams.ignore_eos = true
    ∧ ignoreEosParams.max_tokens = 3
    ∧ llamafu_generate_text (some {}) (some "hi") (some ignoreEosParams) true
        abortGenEnv = (.success, some [])
    ∧ iosIgnoreEosParams.ignore_eos = true
    ∧ iosIgnoreEosParams.max_tokens = 3
    ∧ ios_llamafu_complete iosIgnoreEosParams iosEogEnv = (.success, some "hi") := by
  refine ⟨rfl, rfl, ?_, rfl, rfl, ?_⟩
  · have hloop := genLoop_always_empty
      (some (.mk .chain [])) (some {}) abortGenEnv true 3 0 []
    norm_num [llamafu_generate_text, generate_params_valid, validate_string_param,
      validate_numeric_param, validate_float_param, ignoreEosParams, abortGenEnv,
      llamafu_sampler_chain_init, hloop]
    decide
  · norm_num [ios_llamafu_complete, iosGenLoop, iosIgnoreEosParams, iosEogEnv]

/-- Claim C1 (code bug evidence): registering an abort callback that
requests cancellation from the very first poll does not abort anything.
`llamafu_set_abort_callback` stores the callback in the handle, but the
generation path never reads that slot — and its decode loop cannot even
reach a poll site, since the sampler draw at line 1740 passes index -1
into `llamafu_sampler_sample`, whose `idx < 0` guard breaks the loop
immediately.  The call with `max_tokens = 3` returns `LLAMAFU_SUCCESS`
with an empty result (zero generated tokens), never
`LLAMAFU_ERROR_ABORTED`. -/
theorem llamafu_generate_text_ignores_abort :
    llamafu_set_abort_callback (some {}) (some fun _ => true)
      = (.success, some abortAlwaysHandle)
    ∧ llamafu_generate_text (some abortAlwaysHandle) (some "hi") (some abortParams)
        true abortGenEnv = (.success, some [])
    ∧ LlamafuError.success ≠ LlamafuError.aborted := by
  refine ⟨rfl, ?_, by decide⟩
  have hloop := genLoop_always_empty
    (some (.mk .chain [])) (some abortAlwaysHandle) abortGenEnv false 3 0 []
  norm_num [llamafu_generate_text, generate_params_valid, validate_string_param,
    validate_numeric_param, validate_float_param, abortParams, abortGenEnv,
    llamafu_sampler_chain_init, hloop]
  decide

/-- Claim C6: every sampler constructor rejects an invalid configuration
at construction time — the wrapper returns the null sentinel before the
underlying llama constructor is ever consulted: top-k with `k <= 0`,
top-p / min-p / typical with `p` outside [0,1], mirostat with
`tau <= 0`, `eta <= 0` or `m <= 0`, and mirostat-v2 with `tau <= 0` or
`eta <= 0`. -/
theorem sampler_constructors_reject_invalid (underlyingOk : Bool) :
    (∀ k : Int, k ≤ 0 → llamafu_sampler_init_top_k k underlyingOk = none)
    ∧ (∀ (p : ℚ) (min_keep : Nat), (p < 0 ∨ 1 < p) →
      llamafu_sampler_init_top_p p min_keep underlyingOk = none)
    ∧ (∀ (p : ℚ) (min_keep : Nat), (p < 0 ∨ 1 < p) →
      llamafu_sampler_init_min_p p min_keep underlyingOk = none)
    ∧ (∀ (p : ℚ) (min_keep : Nat), (p < 0 ∨ 1 < p) →
      llamafu_sampler_init_typical p min_keep underlyingOk = none)
    ∧ (∀ (n_vocab : Int) (seed : Nat) (tau eta : ℚ) (m : Int),
      (tau ≤ 0 ∨ eta ≤ 0 ∨ m ≤ 0) →
      llamafu_sampler_init_mirostat n_vocab seed tau eta m underlyingOk = none)
    ∧ (∀ (seed : Nat) (tau eta : ℚ), (tau ≤ 0 ∨ eta ≤ 0) →
      llamafu_sampler_init_mirostat_v2 seed tau eta underlyingOk = none) := by
  refine ⟨?_, ?_, ?_, ?_, ?_, ?_⟩
  · intro k hk
    simp only [llamafu_sampler_init_top_k]
    rw [if_pos hk]
  · intro p mkp h
    simp only [llamafu_sampler_init_top_p]
    rw [if_pos h]
  · intro p mkp h
    simp only [llamafu_sampler_init_min_p]
    rw [if_pos h]
  · intro p mkp h
    simp only [llamafu_sampler_init_typical]
    rw [if_pos h]
  · intro nv seed tau eta m h
    simp only [llamafu_sampler_init_mirostat]
    rw [if_pos (Or.inr h)]
  · intro seed tau eta h
    simp only [llamafu_sampler_init_mirostat_v2]
    rw [if_pos h]

/-- Witness for C6: boundary-violating concrete configurations all fail
to construct. -/
theorem sampler_constructors_reject_invalid_witness :
    llamafu_sampler_init_top_k 0 true = none
    ∧ llamafu_sampler_init_top_p 2 1 true = none
    ∧ llamafu_sampler_init_typical (-1) 1 true = none
    ∧ llamafu_sampler_init_mirostat 32000 42 0 1 100 true = none :=
  ⟨(sampler_constructors_reject_invalid true).1 0 le_rfl,
   (sampler_constructors_reject_invalid true).2.1 2 1 (Or.inr (by norm_num)),
   (sampler_constructors_reject_invalid true).2.2.2.1 (-1) 1 (Or.inl (by norm_num)),
   (sampler_constructors_reject_invalid true).2.2.2.2.1 32000 42 0 1 100
     (Or.inl le_rfl)⟩

/-- Helper for C7: running a valid op sequence against a chain keeps it a
chain, and the final child count balances adds against removes. -/
theorem runOps_chain_length :
    ∀ (ops : List ChainOp) (cs : List LSampler),
      opsValid cs.length ops = true →
      ∃ cs', runOps (some (.mk .chain cs)) ops = some (.mk .chain cs')
        ∧ cs'.length + nRemoves ops = cs.length + nAdds ops := by
  intro ops
  induction ops with
  | nil => intro cs _; exact ⟨cs, rfl, by simp [nAdds, nRemoves]⟩
  | cons op ops ih =>
    intro cs hvalid
    cases op with
    | add s =>
      have hstep : runOps (some (LSampler.mk .chain cs)) (ChainOp.add s :: ops)
          = runOps (some (LSampler.mk .chain (cs ++ [s]))) ops := by
        simp [runOps, llamafu_sampler_chain_add]
      have hv : opsValid (cs ++ [s]).length ops = true := by
        simpa [opsValid, List.length_append] using hvalid
      obtain ⟨cs', h1, h2⟩ := ih (cs ++ [s]) hv
      refine ⟨cs', hstep ▸ h1, ?_⟩
      simp only [List.length_append, List.length_singleton] at h2
      simp only [nAdds, nRemoves]
      omega
    | remove i =>
      have hv0 : (decide (i < cs.length) && opsValid (cs.length - 1) ops) = true := by
        simpa [opsValid] using hvalid
      rw [Bool.and_eq_true, decide_eq_true_iff] at hv0
      obtain ⟨hi, hrest⟩ := hv0
      have hstep : runOps (some (LSampler.mk .chain cs)) (ChainOp.remove i :: ops)
          = runOps (some (LSampler.mk .chain (cs.eraseIdx i))) ops := by
        simp [runOps, llamafu_sampler_chain_remove]
      have hlen : (cs.eraseIdx i).length = cs.length - 1 :=
        List.length_eraseIdx_of_lt hi
      obtain ⟨cs', h1, h2⟩ := ih (cs.eraseIdx i) (by rw [hlen]; exact hrest)
      refine ⟨cs', hstep ▸ h1, ?_⟩
      rw [hlen] at h2
      simp only [nAdds, nRemoves]
      omega

/-- Claim C7: starting from a fresh chain, after any interleaved sequence
of N successful `chain_add` calls and M `chain_remove` calls whose
indices are always in range, `llamafu_sampler_chain_n` returns N − M;
and a `chain_add` whose first argument is null or a non-chain-typed
sampler returns `LLAMAFU_ERROR_INVALID_PARAM` leaving the sampler
unchanged. -/
theorem sampler_chain_count :
    (∀ ops : List ChainOp, opsValid 0 ops = true →
      llamafu_sampler_chain_n (runOps (llamafu_sampler_chain_init true) ops)
        = (nAdds ops : Int) - (nRemoves ops : Int))
    ∧ (∀ s, llamafu_sampler_chain_add none s = (.invalidParam, none))
    ∧ (∀ (t : SamplerType) (cs : List LSampler) (s : LSampler),
      t ≠ SamplerType.chain →
      llamafu_sampler_chain_add (some (.mk t cs)) (some s)
        = (.invalidParam, some (.mk t cs))) := by
  refine ⟨?_, ?_, ?_⟩
  · intro ops hvalid
    obtain ⟨cs', h1, h2⟩ := runOps_chain_length ops []
      (by simpa using hvalid)
    have hinit : llamafu_sampler_chain_init true = some (.mk .chain []) := rfl
    rw [hinit, h1]
    have hn : llamafu_sampler_chain_n (some (LSampler.mk .chain cs'))
        = (cs'.length : Int) := by
      simp [llamafu_sampler_chain_n]
    rw [hn]
    have h2' : cs'.length + nRemoves ops = nAdds ops := by simpa using h2
    omega
  · intro s; rfl
  · intro t cs s ht
    simp [llamafu_sampler_chain_add, ht]

/-- Witness for C7: two adds followed by one in-range remove leave one
child in the chain. -/
theorem sampler_chain_count_witness :
    opsValid 0 demoOps = true
    ∧ llamafu_sampler_chain_n (runOps (llamafu_sampler_chain_init true) demoOps)
      = (nAdds demoOps : Int) - (nRemoves demoOps : Int) :=
  ⟨rfl, sampler_chain_count.1 demoOps rfl⟩

/-- Claim C10: every embedded android operation that receives an opaque
handle (Llamafu, LlamafuSampler or LlamafuMemory) checks it for null
first: with a null handle it performs no backend call at all (empty
event trace, so nothing is dereferenced and no other state is touched)
and returns its documented sentinel (-1, 0, false, null, InvalidParam)
or is a no-op. -/
theorem null_handle_no_deref :
    (∀ env : VocabEnv, llamafu_token_bos none env = (-1, []))
    ∧ (∀ env : VocabEnv, llamafu_token_eos none env = (-1, []))
    ∧ (∀ (t : Int) (env : VocabEnv), llamafu_token_is_eog none t env = (false, []))
    ∧ (∀ env : VocabEnv, llamafu_vocab_n_tokens none env = (-1, []))
    ∧ (∀ env : VocabEnv, llamafu_get_state_size none env = (0, []))
    ∧ llamafu_get_memory none = (none, [])
    ∧ (∀ b : Bool, llamafu_memory_clear none b = [])
    ∧ (∀ (s p0 p1 : Int) (env : MemEnv),
      llamafu_memory_seq_rm none s p0 p1 env = (false, []))
    ∧ (∀ (s : Int) (env : MemEnv), llamafu_memory_seq_pos_max none s env = (-1, []))
    ∧ (∀ env : MemEnv, llamafu_memory_can_shift none env = (false, []))
    ∧ llamafu_sampler_free none = []
    ∧ (∀ t : Int, llamafu_sampler_accept none t = [])
    ∧ (∀ (h : Option AndroidHandle) (idx r : Int),
      llamafu_sampler_sample none h idx r = (-1, []))
    ∧ (∀ (s : Option LSampler) (idx r : Int),
      llamafu_sampler_sample s none idx r = (-1, []))
    ∧ llamafu_sampler_chain_n none = -1
    ∧ (∀ i : Int, llamafu_sampler_chain_remove none i = (.invalidParam, none))
    ∧ llamafu_free none = []
    ∧ (∀ cb, llamafu_set_abort_callback none cb = (.invalidParam, none))
    ∧ (∀ (p : Option InferParams) (ov : Bool) (env : CompleteEnv),
      llamafu_complete none p ov env = (.invalidParam, none))
    ∧ (∀ (pr : Option String) (p : Option InferParams) (ov : Bool) (env : GenEnv),
      llamafu_generate_text none pr p ov env = (.invalidParam, none)) := by
  refine ⟨fun _ => rfl, fun _ => rfl, fun _ _ => rfl, fun _ => rfl, fun _ => rfl,
    rfl, fun _ => rfl, fun _ _ _ _ => rfl, fun _ _ => rfl, fun _ => rfl, rfl,
    fun _ => rfl, ?_, ?_, rfl, fun _ => rfl, rfl, fun _ => rfl, ?_, ?_⟩
  · intro h idx r; rfl
  · intro s idx r; cases s <;> rfl
  · intro p ov env; cases p <;> rfl
  · intro pr p ov env; cases p <;> rfl
